import Mathlib

/-!
Verification of the MechaSense predictive-maintenance core against its
design specification.

The TypeScript sources are shallowly embedded: JS numbers are modelled as
rationals, stateful hooks/modules as explicit state-passing functions, and
asynchronous publish outcomes as explicit boolean inputs chosen by the
environment.  Each definition mirrors one function of the repository:

* expert-system diagnosis (`runDiagnosis`, `calculateConclusion` in
  `app/ai-center/page.tsx`, `fuzzyLevelToValue` in the fuzzy-membership
  module),
* alert dispatch (`detectCriticalConditions`, `checkAndSendAlert` in
  `hooks/useAlertMqtt.ts`),
* the MQTT session singleton (`connectMqtt`, `sendAlertToPLC`,
  `sendOffSignalToPLC` in the MQTT module),
* the prediction endpoint (`POST` in `app/api/ml/predict/route.ts`).
-/

namespace MechaSense

/- ================================================================
   Expert system: fuzzy membership and diagnosis
   (src/app/ai-center/page.tsx, src/unnamed/part_001)
   ================================================================ -/

/-- The three user-answer levels of the expert system. -/
inductive FuzzyLevel
  | no
  | sometimes
  | yes
deriving DecidableEq

/-- `fuzzyLevelToValue` from the fuzzy-membership module: maps a user
answer to its certainty-factor multiplier (No = 0, Sometimes = 0.5,
Yes = 1). -/
def fuzzyLevelToValue : FuzzyLevel → ℚ
  | .no => 0
  | .sometimes => 1/2
  | .yes => 1

/-- An entry of the static symptom catalog: identifier plus the
expert-assigned certainty factor (`cfExpert`). -/
structure Symptom where
  id : Nat
  cfExpert : ℚ
deriving DecidableEq

/-- Combination operator of a rule. -/
inductive RuleOp
  | AND
  | OR
deriving DecidableEq

/-- Severity level of a rule: A = Minor, B = Moderate, C = Severe. -/
inductive RuleLevel
  | A
  | B
  | C
deriving DecidableEq

/-- An entry of the static rule catalog. -/
structure DiagRule where
  id : String
  symptoms : List Nat
  operator : RuleOp
  level : RuleLevel
  damage : String
  solution : String
deriving DecidableEq

/-- A diagnosis result as pushed by `runDiagnosis`. -/
structure DiagnosisResult where
  id : String
  level : RuleLevel
  damage : String
  solution : String
  cfRule : ℚ
deriving DecidableEq

/-- The user answer set: `answers[sid]` is `none` when the symptom was
left unanswered. -/
abbrev Answers := Nat → Option FuzzyLevel

/-- `Number(x.toFixed(2))` on an exact rational: round to two decimals,
ties away from zero for the nonnegative values arising here. -/
def round2 (q : ℚ) : ℚ := ((round (q * 100) : ℤ) : ℚ) / 100

/-- `Number(x.toFixed(1))` on an exact rational: round to one decimal. -/
def round1 (q : ℚ) : ℚ := ((round (q * 10) : ℤ) : ℚ) / 10

/-- Body of the inner `rule.symptoms.forEach` loop of `runDiagnosis`:
push `userCF * expertCF` when the symptom was answered and is present in
the catalog, otherwise leave the accumulator unchanged. -/
def cfStep (symptoms : List Symptom) (answers : Answers) (acc : List ℚ) (sid : Nat) : List ℚ :=
  match answers sid, symptoms.find? (fun s => s.id == sid) with
  | some a, some s => acc ++ [fuzzyLevelToValue a * s.cfExpert]
  | _, _ => acc

/-- The `cfValues` array built by `runDiagnosis` for one rule. -/
def ruleCfValues (symptoms : List Symptom) (answers : Answers) (rule : DiagRule) : List ℚ :=
  rule.symptoms.foldl (cfStep symptoms answers) []

/-- `rule.operator === "OR" ? Math.max(...cfValues) : Math.min(...cfValues)`
on the nonempty list `c :: cs`. -/
def combineCF (op : RuleOp) (c : ℚ) (cs : List ℚ) : ℚ :=
  match op with
  | .OR => cs.foldl max c
  | .AND => cs.foldl min c

/-- Per-rule evaluation step of `runDiagnosis`: skip the rule when no
referenced symptom was answered, otherwise combine the certainty factors
and emit a result exactly when the combined factor is strictly positive
(the stored `cfRule` is rounded to two decimals by `toFixed(2)`). -/
def evalRule (symptoms : List Symptom) (answers : Answers) (rule : DiagRule) : Option DiagnosisResult :=
  match ruleCfValues symptoms answers rule with
  | [] => none
  | c :: cs =>
    let cfRule := combineCF rule.operator c cs
    if 0 < cfRule then
      some { id := rule.id, level := rule.level, damage := rule.damage,
             solution := rule.solution, cfRule := round2 cfRule }
    else none

/-- `runDiagnosis` from `app/ai-center/page.tsx`: fold over the rule
catalog, pushing one result per rule that evaluates to a positive
certainty factor. -/
def runDiagnosis (rules : List DiagRule) (symptoms : List Symptom) (answers : Answers) : List DiagnosisResult :=
  rules.foldl (fun output rule =>
    match evalRule symptoms answers rule with
    | some r => output ++ [r]
    | none => output) []

/-- The fixed severity scores `levelScore` (A = 40, B = 70, C = 100). -/
def levelScore : RuleLevel → ℚ
  | .A => 40
  | .B => 70
  | .C => 100

/-- The aggregate conclusion produced by `calculateConclusion`. -/
structure Conclusion where
  percent : ℚ
  label : String
deriving DecidableEq

/-- `calculateConclusion` from `app/ai-center/page.tsx`: null conclusion
on an empty result list, otherwise bucket the (stored one-decimal-rounded)
average severity score. -/
def calculateConclusion (data : List DiagnosisResult) : Option Conclusion :=
  if data.length = 0 then none
  else
    let totalScore := data.foldl (fun sum r => sum + levelScore r.level) 0
    let percent := totalScore / ((data.length : ℚ) * 100) * 100
    let label := if percent ≤ 40 then "Minor" else if percent ≤ 70 then "Moderate" else "Severe"
    some { percent := round1 percent, label := label }

/-- The per-symptom contribution of the specification:
`fuzzyValue(answer) * expertCF(symptom)` for an answered, catalogued
symptom, and no contribution otherwise. -/
def symptomContribution (symptoms : List Symptom) (answers : Answers) (sid : Nat) : Option ℚ :=
  match answers sid, symptoms.find? (fun s => s.id == sid) with
  | some a, some s => some (fuzzyLevelToValue a * s.cfExpert)
  | _, _ => none

/-- The exact average of the severity scores of the emitted results, as
the specification describes the aggregate percent. -/
def avgScore (data : List DiagnosisResult) : ℚ :=
  (data.map (fun r => levelScore r.level)).sum / (data.length : ℚ)

/- ============ helper lemmas for the diagnosis engine ============ -/

theorem cfStep_eq_toList (symptoms : List Symptom) (answers : Answers) (acc : List ℚ) (sid : Nat) :
    cfStep symptoms answers acc sid = acc ++ (symptomContribution symptoms answers sid).toList := by
  unfold cfStep symptomContribution
  cases answers sid <;> cases symptoms.find? (fun s => s.id == sid) <;> simp

theorem foldl_cfStep (symptoms : List Symptom) (answers : Answers) (l : List Nat) :
    ∀ acc : List ℚ,
      l.foldl (cfStep symptoms answers) acc
        = acc ++ l.filterMap (symptomContribution symptoms answers) := by
  induction l with
  | nil => intro acc; simp
  | cons x xs ih =>
    intro acc
    rw [List.foldl_cons, cfStep_eq_toList, ih]
    cases h : symptomContribution symptoms answers x <;> simp [h]

theorem ruleCfValues_eq_filterMap (symptoms : List Symptom) (answers : Answers) (rule : DiagRule) :
    ruleCfValues symptoms answers rule
      = rule.symptoms.filterMap (symptomContribution symptoms answers) := by
  unfold ruleCfValues
  rw [foldl_cfStep]
  simp

theorem foldl_max_mem (cs : List ℚ) : ∀ c : ℚ, cs.foldl max c ∈ c :: cs := by
  induction cs with
  | nil => intro c; simp
  | cons x xs ih =>
    intro c
    rw [List.foldl_cons]
    have h := ih (max c x)
    simp only [List.mem_cons] at h ⊢
    rcases h with h1 | h1
    · rcases max_choice c x with hm | hm
      · exact Or.inl (h1.trans hm)
      · exact Or.inr (Or.inl (h1.trans hm))
    · exact Or.inr (Or.inr h1)

theorem le_foldl_max (cs : List ℚ) :
    ∀ c : ℚ, c ≤ cs.foldl max c ∧ ∀ x ∈ cs, x ≤ cs.foldl max c := by
  induction cs with
  | nil => intro c; simp
  | cons y ys ih =>
    intro c
    rw [List.foldl_cons]
    obtain ⟨h1, h2⟩ := ih (max c y)
    refine ⟨le_trans (le_max_left c y) h1, ?_⟩
    intro x hx
    rcases List.mem_cons.mp hx with rfl | hx
    · exact le_trans (le_max_right c x) h1
    · exact h2 x hx

theorem foldl_min_mem (cs : List ℚ) : ∀ c : ℚ, cs.foldl min c ∈ c :: cs := by
  induction cs with
  | nil => intro c; simp
  | cons x xs ih =>
    intro c
    rw [List.foldl_cons]
    have h := ih (min c x)
    simp only [List.mem_cons] at h ⊢
    rcases h with h1 | h1
    · rcases min_choice c x with hm | hm
      · exact Or.inl (h1.trans hm)
      · exact Or.inr (Or.inl (h1.trans hm))
    · exact Or.inr (Or.inr h1)

theorem foldl_min_le (cs : List ℚ) :
    ∀ c : ℚ, cs.foldl min c ≤ c ∧ ∀ x ∈ cs, cs.foldl min c ≤ x := by
  induction cs with
  | nil => intro c; simp
  | cons y ys ih =>
    intro c
    rw [List.foldl_cons]
    obtain ⟨h1, h2⟩ := ih (min c y)
    refine ⟨le_trans h1 (min_le_left c y), ?_⟩
    intro x hx
    rcases List.mem_cons.mp hx with rfl | hx
    · exact le_trans h1 (min_le_right c x)
    · exact h2 x hx

/- ============ C4 ============ -/

/-- C4: for every rule and answer set, the contributions gathered by the
diagnosis loop are exactly `fuzzyValue(answer) * expertCF(symptom)` over
the answered symptoms, and the combined rule certainty factor is the
maximum of the contributions for an OR rule and the minimum for an AND
rule; the rule is emitted with that (two-decimal-rounded) factor exactly
when it is positive. -/
theorem rule_cf_combination (symptoms : List Symptom) (answers : Answers) (rule : DiagRule)
    (c : ℚ) (cs : List ℚ)
    (h : rule.symptoms.filterMap (symptomContribution symptoms answers) = c :: cs) :
    combineCF rule.operator c cs ∈ c :: cs ∧
    (rule.operator = .OR → ∀ x ∈ c :: cs, x ≤ combineCF rule.operator c cs) ∧
    (rule.operator = .AND → ∀ x ∈ c :: cs, combineCF rule.operator c cs ≤ x) ∧
    evalRule symptoms answers rule =
      (if 0 < combineCF rule.operator c cs then
        some { id := rule.id, level := rule.level, damage := rule.damage,
               solution := rule.solution, cfRule := round2 (combineCF rule.operator c cs) }
       else none) := by
  have hvals : ruleCfValues symptoms answers rule = c :: cs := by
    rw [ruleCfValues_eq_filterMap, h]
  refine ⟨?_, ?_, ?_, ?_⟩
  · cases hop : rule.operator
    · simpa [combineCF] using foldl_min_mem cs c
    · simpa [combineCF] using foldl_max_mem cs c
  · intro hop x hx
    rw [hop]
    show x ≤ cs.foldl max c
    rcases List.mem_cons.mp hx with rfl | hx
    · exact (le_foldl_max cs x).1
    · exact (le_foldl_max cs c).2 x hx
  · intro hop x hx
    rw [hop]
    show cs.foldl min c ≤ x
    rcases List.mem_cons.mp hx with rfl | hx
    · exact (foldl_min_le cs x).1
    · exact (foldl_min_le cs c).2 x hx
  · simp only [evalRule, hvals]

/-- Concrete symptom catalog with expert CFs 0.8 and 0.6. -/
def demoSymptoms : List Symptom := [{ id := 1, cfExpert := 4/5 }, { id := 2, cfExpert := 3/5 }]

/-- Both demo symptoms answered Yes. -/
def demoAnswers : Answers := fun sid => if sid = 1 ∨ sid = 2 then some .yes else none

/-- A two-symptom AND rule over the demo symptoms. -/
def demoAndRule : DiagRule :=
  { id := "R1", symptoms := [1, 2], operator := .AND, level := .B,
    damage := "bearing damage", solution := "replace bearing" }

/-- A two-symptom OR rule over the demo symptoms. -/
def demoOrRule : DiagRule :=
  { id := "R2", symptoms := [1, 2], operator := .OR, level := .B,
    damage := "bearing damage", solution := "replace bearing" }

/-- Witness for C4: expert CFs 0.8/0.6 answered Yes/Yes give rule CF 0.6
under AND and 0.8 under OR. -/
theorem rule_cf_combination_witness :
    evalRule demoSymptoms demoAnswers demoAndRule =
      some { id := "R1", level := .B, damage := "bearing damage",
             solution := "replace bearing", cfRule := 3/5 } ∧
    evalRule demoSymptoms demoAnswers demoOrRule =
      some { id := "R2", level := .B, damage := "bearing damage",
             solution := "replace bearing", cfRule := 4/5 } := by
  have hand : demoAndRule.symptoms.filterMap (symptomContribution demoSymptoms demoAnswers)
      = (4/5 : ℚ) :: [3/5] := by
    have hstep : demoAndRule.symptoms.filterMap (symptomContribution demoSymptoms demoAnswers)
        = [fuzzyLevelToValue .yes * (4/5), fuzzyLevelToValue .yes * (3/5)] := rfl
    rw [hstep]
    norm_num [fuzzyLevelToValue]
  have hor : demoOrRule.symptoms.filterMap (symptomContribution demoSymptoms demoAnswers)
      = (4/5 : ℚ) :: [3/5] := by
    have hstep : demoOrRule.symptoms.filterMap (symptomContribution demoSymptoms demoAnswers)
        = [fuzzyLevelToValue .yes * (4/5), fuzzyLevelToValue .yes * (3/5)] := rfl
    rw [hstep]
    norm_num [fuzzyLevelToValue]
  have h1 := rule_cf_combination demoSymptoms demoAnswers demoAndRule (4/5) [3/5] hand
  have h2 := rule_cf_combination demoSymptoms demoAnswers demoOrRule (4/5) [3/5] hor
  constructor
  · rw [h1.2.2.2]
    norm_num [combineCF, demoAndRule, round2, round_eq]
  · rw [h2.2.2.2]
    norm_num [combineCF, demoOrRule, round2, round_eq]

/- ============ C5 ============ -/

theorem runDiagnosis_eq_filterMap (rules : List DiagRule) (symptoms : List Symptom) (answers : Answers) :
    runDiagnosis rules symptoms answers = rules.filterMap (evalRule symptoms answers) := by
  unfold runDiagnosis
  suffices h : ∀ (l : List DiagRule) (acc : List DiagnosisResult),
      l.foldl (fun output rule =>
        match evalRule symptoms answers rule with
        | some r => output ++ [r]
        | none => output) acc
        = acc ++ l.filterMap (evalRule symptoms answers) by
    simpa using h rules []
  intro l
  induction l with
  | nil => intro acc; simp
  | cons x xs ih =>
    intro acc
    rw [List.foldl_cons]
    cases hx : evalRule symptoms answers x <;> simp [hx, ih]

theorem filterMap_filter_of_none {α β : Type} (f : α → Option β) (p : α → Bool)
    (hf : ∀ x, p x = false → f x = none) (l : List α) :
    (l.filter p).filterMap f = l.filterMap f := by
  induction l with
  | nil => simp
  | cons x xs ih =>
    cases hp : p x
    · have hx : (x :: xs).filter p = xs.filter p := by simp [List.filter_cons, hp]
      rw [hx, ih, List.filterMap_cons, hf x hp]
    · have hx : (x :: xs).filter p = x :: xs.filter p := by simp [List.filter_cons, hp]
      rw [hx]
      simp only [List.filterMap_cons]
      rw [ih]

/-- C5: a symptom the user did not answer is excluded from a rule's
evaluation (dropping unanswered symptom references does not change the
gathered contributions); a rule none of whose referenced symptoms was
answered produces no result; and every emitted result stems from a rule
whose combined certainty factor is strictly positive. -/
theorem unanswered_excluded (symptoms : List Symptom) (answers : Answers) :
    (∀ rule : DiagRule,
      ruleCfValues symptoms answers rule =
        ruleCfValues symptoms answers
          { rule with symptoms := rule.symptoms.filter (fun sid => (answers sid).isSome) }) ∧
    (∀ rule : DiagRule, (∀ sid ∈ rule.symptoms, answers sid = none) →
      evalRule symptoms answers rule = none) ∧
    (∀ (rules : List DiagRule) (res : DiagnosisResult),
      res ∈ runDiagnosis rules symptoms answers →
      ∃ rule ∈ rules, ∃ (c : ℚ) (cs : List ℚ),
        rule.symptoms.filterMap (symptomContribution symptoms answers) = c :: cs ∧
        0 < combineCF rule.operator c cs ∧
        res = { id := rule.id, level := rule.level, damage := rule.damage,
                solution := rule.solution, cfRule := round2 (combineCF rule.operator c cs) }) := by
  have hnone : ∀ sid, (answers sid).isSome = false → symptomContribution symptoms answers sid = none := by
    intro sid hs
    unfold symptomContribution
    cases ha : answers sid
    · rfl
    · rw [ha] at hs
      simp at hs
  refine ⟨?_, ?_, ?_⟩
  · intro rule
    rw [ruleCfValues_eq_filterMap, ruleCfValues_eq_filterMap]
    show _ = List.filterMap _ (List.filter _ rule.symptoms)
    rw [filterMap_filter_of_none _ _ hnone]
  · intro rule hall
    have hnil : rule.symptoms.filterMap (symptomContribution symptoms answers) = [] := by
      rw [List.filterMap_eq_nil_iff]
      intro sid hsid
      apply hnone
      rw [hall sid hsid]
      rfl
    unfold evalRule
    rw [ruleCfValues_eq_filterMap, hnil]
  · intro rules res hres
    rw [runDiagnosis_eq_filterMap] at hres
    obtain ⟨rule, hrule, heval⟩ := List.mem_filterMap.mp hres
    refine ⟨rule, hrule, ?_⟩
    unfold evalRule at heval
    rw [ruleCfValues_eq_filterMap] at heval
    cases hv : rule.symptoms.filterMap (symptomContribution symptoms answers) with
    | nil => rw [hv] at heval; simp at heval
    | cons c cs =>
      rw [hv] at heval
      simp only at heval
      by_cases hpos : 0 < combineCF rule.operator c cs
      · rw [if_pos hpos] at heval
        exact ⟨c, cs, rfl, hpos, (Option.some_inj.mp heval).symm⟩
      · rw [if_neg hpos] at heval
        cases heval

/-- An answer set that answers nothing. -/
def noAnswers : Answers := fun _ => none

/-- Witness for C5: with no answered symptom, the demo AND rule produces
no result. -/
theorem unanswered_excluded_witness :
    evalRule demoSymptoms noAnswers demoAndRule = none :=
  (unanswered_excluded demoSymptoms noAnswers).2.1 demoAndRule (fun _ _ => rfl)

/- ============ C6 ============ -/

/-- A Minor-level result used in concrete conclusion computations. -/
def cexResultA : DiagnosisResult :=
  { id := "R1", level := .A, damage := "d", solution := "s", cfRule := 1/2 }

/-- A Moderate-level result used in concrete conclusion computations. -/
def cexResultB : DiagnosisResult :=
  { id := "R2", level := .B, damage := "d", solution := "s", cfRule := 1/2 }

/-- Six Minor results and one Moderate result: the average severity score
is 310/7, which is not representable with one decimal. -/
def cexResults : List DiagnosisResult :=
  [cexResultA, cexResultA, cexResultA, cexResultA, cexResultA, cexResultA, cexResultB]

/-- C6 counterexample: on six Minor results and one Moderate result the
average severity score is 310/7, but the conclusion stores the
one-decimal-rounded value 44.3, so the stored percent is not equal to the
average. -/
theorem conclusion_percent_cex :
    calculateConclusion cexResults = some { percent := 443/10, label := "Moderate" } ∧
    avgScore cexResults = 310/7 ∧
    (443/10 : ℚ) ≠ 310/7 := by
  refine ⟨?_, ?_, by norm_num⟩
  · norm_num [calculateConclusion, cexResults, cexResultA, cexResultB, levelScore,
      round1, round_eq, List.foldl_cons, List.foldl_nil]
  · norm_num [avgScore, cexResults, cexResultA, cexResultB, levelScore]

theorem foldl_add_levelScore (l : List DiagnosisResult) :
    ∀ acc : ℚ,
      l.foldl (fun sum r => sum + levelScore r.level) acc
        = acc + (l.map (fun r => levelScore r.level)).sum := by
  induction l with
  | nil => intro acc; simp
  | cons x xs ih =>
    intro acc
    rw [List.foldl_cons, ih]
    simp [add_assoc]

/-- C6 amended: for a non-empty result list the conclusion's percent is
the average of the fixed severity scores rounded to one decimal (the
label is bucketed from the exact average: Minor when at most 40, Moderate
when at most 70, Severe above); an empty result list yields a null
conclusion. -/
theorem calculateConclusion_spec (data : List DiagnosisResult) :
    (data = [] → calculateConclusion data = none) ∧
    (data ≠ [] → calculateConclusion data =
      some { percent := round1 (avgScore data),
             label := if avgScore data ≤ 40 then "Minor"
                      else if avgScore data ≤ 70 then "Moderate" else "Severe" }) := by
  constructor
  · intro h
    subst h
    simp [calculateConclusion]
  · intro h
    have hlen : data.length ≠ 0 := by simpa [List.length_eq_zero] using h
    have hlenQ : ((data.length : ℚ)) ≠ 0 := by exact_mod_cast hlen
    have htot : data.foldl (fun sum r => sum + levelScore r.level) (0 : ℚ)
        = (data.map (fun r => levelScore r.level)).sum := by
      simpa using foldl_add_levelScore data 0
    have hper : (data.map (fun r => levelScore r.level)).sum / ((data.length : ℚ) * 100) * 100
        = avgScore data := by
      unfold avgScore
      field_simp
      ring
    simp only [calculateConclusion, if_neg hlen, htot, hper]

/-- Witness for C6 (amended): a single Minor result yields percent 40 and
label Minor. -/
theorem calculateConclusion_spec_witness :
    calculateConclusion [cexResultA] = some { percent := 40, label := "Minor" } := by
  have h := (calculateConclusion_spec [cexResultA]).2 (by simp)
  rw [h]
  norm_num [avgScore, cexResultA, levelScore, round1, round_eq]

/- ================================================================
   Threshold evaluation and alert dispatch (src/hooks/useAlertMqtt.ts)
   ================================================================ -/

/-- Three-level parameter status. -/
inductive StatusLevel
  | normal
  | warning
  | critical
deriving DecidableEq

/-- The seven parameter identifiers checked by the alert dispatcher, in
source order. -/
inductive ParamType
  | vibrationRms
  | motorSurfaceTemp
  | bearingTemp
  | motorCurrent
  | gridVoltage
  | powerFactor
  | dustDensity
deriving DecidableEq

/-- The string key of a parameter as used by the TypeScript code. -/
def ParamType.name : ParamType → String
  | .vibrationRms => "vibrationRms"
  | .motorSurfaceTemp => "motorSurfaceTemp"
  | .bearingTemp => "bearingTemp"
  | .motorCurrent => "motorCurrent"
  | .gridVoltage => "gridVoltage"
  | .powerFactor => "powerFactor"
  | .dustDensity => "dustDensity"

/-- A sensor reading: every field independently optional (the `SensorReading`
interface of `hooks/useAlertMqtt.ts`). -/
structure SensorReading where
  gridVoltage : Option ℚ := none
  motorCurrent : Option ℚ := none
  powerFactor : Option ℚ := none
  gridFrequency : Option ℚ := none
  motorSurfaceTemp : Option ℚ := none
  bearingTemp : Option ℚ := none
  vibrationRms : Option ℚ := none
  dustDensity : Option ℚ := none
  healthIndex : Option ℚ := none
deriving DecidableEq

/-- `data[param.key]` for the checked parameters. -/
def SensorReading.get (data : SensorReading) : ParamType → Option ℚ
  | .vibrationRms => data.vibrationRms
  | .motorSurfaceTemp => data.motorSurfaceTemp
  | .bearingTemp => data.bearingTemp
  | .motorCurrent => data.motorCurrent
  | .gridVoltage => data.gridVoltage
  | .powerFactor => data.powerFactor
  | .dustDensity => data.dustDensity

/-- The fixed `parametersToCheck` evaluation order of
`detectCriticalConditions`. -/
def parametersToCheck : List ParamType :=
  [.vibrationRms, .motorSurfaceTemp, .bearingTemp, .motorCurrent,
   .gridVoltage, .powerFactor, .dustDensity]

/-- Return shape of `detectCriticalConditions`; a reason is modelled as a
(label, value) pair in place of the formatted log string. -/
structure CriticalConditionResult where
  hasCritical : Bool
  reasons : List (String × ℚ)
  mostSevereParameter : Option String
  mostSevereValue : Option ℚ
deriving DecidableEq

/-- One iteration of the `for (const param of parametersToCheck)` loop of
`detectCriticalConditions`: skip an absent value; on a critical value push a
reason and claim the most-severe slot when it is unclaimed or still held by
the health index. -/
def criticalStep (statusOf : ParamType → ℚ → StatusLevel) (data : SensorReading)
    (acc : List (String × ℚ) × Option String × Option ℚ) (p : ParamType) :
    List (String × ℚ) × Option String × Option ℚ :=
  match data.get p with
  | none => acc
  | some v =>
    if statusOf p v = .critical then
      if acc.2.1 = none ∨ acc.2.1 = some "healthIndex" then
        (acc.1 ++ [(p.name, v)], some p.name, some v)
      else
        (acc.1 ++ [(p.name, v)], acc.2.1, acc.2.2)
    else acc

/-- `detectCriticalConditions` from `hooks/useAlertMqtt.ts`.  `statusOf`
abstracts `getStatusColor` of `lib/thresholds.ts` (whose source is not part
of the embedded files): it returns the status level of a present parameter
value.  The health index is checked first (`healthIndex < healthThreshold`),
then the seven parameters in the fixed order. -/
def detectCriticalConditions (statusOf : ParamType → ℚ → StatusLevel)
    (data : SensorReading) (healthThreshold : ℚ) : CriticalConditionResult :=
  let init : List (String × ℚ) × Option String × Option ℚ :=
    match data.healthIndex with
    | some h =>
      if h < healthThreshold then ([("Health Index", h)], some "healthIndex", some h)
      else ([], none, none)
    | none => ([], none, none)
  let res := parametersToCheck.foldl (criticalStep statusOf data) init
  { hasCritical := !res.1.isEmpty
    reasons := res.1
    mostSevereParameter := res.2.1
    mostSevereValue := res.2.2 }

/-- Whether a parameter is present in the reading and evaluates to
Critical. -/
def isCrit (statusOf : ParamType → ℚ → StatusLevel) (data : SensorReading) (p : ParamType) : Bool :=
  match data.get p with
  | some v => statusOf p v == .critical
  | none => false

/-- The first Critical parameter in the fixed evaluation order. -/
def firstCriticalParam (statusOf : ParamType → ℚ → StatusLevel) (data : SensorReading) :
    Option ParamType :=
  parametersToCheck.find? (isCrit statusOf data)

/- ============ threshold table (spec-modelled) ============ -/

/-- A threshold-table entry: (normal bound, critical bound, direction). -/
structure ThresholdEntry where
  normalBound : ℚ
  criticalBound : ℚ
  lowIsBad : Bool
deriving DecidableEq

/-- Modelled from the spec: `getStatusColor` of `lib/thresholds.ts` is not
among the embedded source files.  Spec section 4.1 fixes the direction-aware
comparison with boundary values belonging to the worse band: for
high-is-bad parameters, value below the normal bound is Normal, below the
critical bound is Warning, otherwise Critical; for low-is-bad parameters
(power factor) the comparisons invert. -/
def getStatusColor (value : ℚ) (t : ThresholdEntry) : StatusLevel :=
  if t.lowIsBad then
    if t.normalBound < value then .normal
    else if t.criticalBound < value then .warning
    else .critical
  else
    if value < t.normalBound then .normal
    else if value < t.criticalBound then .warning
    else .critical

/-- Modelled from the spec: the default threshold table of spec section 6,
also printed in the repository README: vibration RMS 2.8 / 4.5 mm/s,
surface temperature 70 / 85, bearing temperature 65 / 80, power factor
0.85 / 0.70 with inverted direction.  The remaining three checked
parameters have no documented table entry. -/
def defaultThresholds : ParamType → Option ThresholdEntry
  | .vibrationRms => some { normalBound := 28/10, criticalBound := 45/10, lowIsBad := false }
  | .motorSurfaceTemp => some { normalBound := 70, criticalBound := 85, lowIsBad := false }
  | .bearingTemp => some { normalBound := 65, criticalBound := 80, lowIsBad := false }
  | .powerFactor => some { normalBound := 85/100, criticalBound := 70/100, lowIsBad := true }
  | _ => none

/-- The documented status function: table lookup plus `getStatusColor`;
parameters without a documented entry are treated as Normal (no concrete
instance below ever supplies a value for them). -/
def specStatus (p : ParamType) (v : ℚ) : StatusLevel :=
  match defaultThresholds p with
  | some t => getStatusColor v t
  | none => .normal

/- ============ alert dispatcher state machine ============ -/

/-- The mutable refs of the alert hook: `lastAlertTimeRef` (initially 0)
and `wasInCriticalRef` (initially false). -/
structure AlertRefs where
  lastAlertTime : ℤ
  wasInCritical : Bool
deriving DecidableEq

/-- Side effect of one dispatcher evaluation; `ok` is the resolution of
the awaited publish. -/
inductive AlertEffect
  | none
  | sendOn (param : Option String) (value : Option ℚ) (ok : Bool)
  | sendOff (ok : Bool)
deriving DecidableEq

/-- `checkAndSendAlert` from `hooks/useAlertMqtt.ts`: on a Critical
condition, suppress inside the cooldown window, otherwise publish the ON
command (updating the refs only when the publish resolves successfully);
on a non-Critical condition with the latch set, publish the OFF command
(clearing the latch only on success).  `sendResult` is the
environment-chosen resolution of the awaited publish. -/
def checkAndSendAlert (statusOf : ParamType → ℚ → StatusLevel) (data : SensorReading)
    (healthThreshold : ℚ) (alertCooldown now : ℤ) (sendResult : Bool) (s : AlertRefs) :
    AlertEffect × AlertRefs :=
  let cc := detectCriticalConditions statusOf data healthThreshold
  if cc.hasCritical then
    if now - s.lastAlertTime < alertCooldown then (.none, s)
    else if sendResult then
      (.sendOn cc.mostSevereParameter cc.mostSevereValue true,
       { lastAlertTime := now, wasInCritical := true })
    else (.sendOn cc.mostSevereParameter cc.mostSevereValue false, s)
  else if s.wasInCritical then
    if sendResult then (.sendOff true, { s with wasInCritical := false })
    else (.sendOff false, s)
  else (.none, s)

/-- A sequence of dispatcher evaluations: each input is (reading, time,
publish resolution); returns the effect trace and the final refs. -/
def runAlerts (statusOf : ParamType → ℚ → StatusLevel) (healthThreshold : ℚ)
    (alertCooldown : ℤ) :
    AlertRefs → List (SensorReading × ℤ × Bool) → List AlertEffect × AlertRefs
  | s, [] => ([], s)
  | s, e :: rest =>
    let step := checkAndSendAlert statusOf e.1 healthThreshold alertCooldown e.2.1 e.2.2 s
    let tail := runAlerts statusOf healthThreshold alertCooldown step.2 rest
    (step.1 :: tail.1, tail.2)

/-- Whether an effect is a SendOn command. -/
def AlertEffect.isOn : AlertEffect → Bool
  | .sendOn _ _ _ => true
  | _ => false

/-- The latch property claimed by the specification, as a trace predicate:
after a SendOn, no further SendOn may occur before a SendOff. -/
def latchSafeAux : Bool → List AlertEffect → Bool
  | _, [] => true
  | latched, e :: es =>
    match e with
    | .sendOn _ _ _ => if latched then false else latchSafeAux true es
    | .sendOff _ => latchSafeAux false es
    | .none => latchSafeAux latched es

/-- `latchSafe es` holds when no SendOn in `es` is followed by a second
SendOn without an intervening SendOff. -/
def latchSafe (es : List AlertEffect) : Bool := latchSafeAux false es

/- ============ helper lemmas for the dispatcher ============ -/

theorem foldl_criticalStep_fixed (statusOf : ParamType → ℚ → StatusLevel) (data : SensorReading) :
    ∀ (l : List ParamType) (rs : List (String × ℚ)) (nm : String) (mv : Option ℚ),
      nm ≠ "healthIndex" →
      (l.foldl (criticalStep statusOf data) (rs, some nm, mv)).2 = (some nm, mv) := by
  intro l
  induction l with
  | nil => intro rs nm mv h; rfl
  | cons p ps ih =>
    intro rs nm mv h
    rw [List.foldl_cons]
    have hstep : ∃ rs', criticalStep statusOf data (rs, some nm, mv) p = (rs', some nm, mv) := by
      unfold criticalStep
      cases hget : data.get p with
      | none => exact ⟨rs, rfl⟩
      | some v =>
        by_cases hcrit : statusOf p v = .critical
        · exact ⟨rs ++ [(p.name, v)], by simp [hcrit, h]⟩
        · exact ⟨rs, by simp [hcrit]⟩
    obtain ⟨rs', hs⟩ := hstep
    rw [hs]
    exact ih rs' nm mv h

theorem foldl_criticalStep_severe (statusOf : ParamType → ℚ → StatusLevel) (data : SensorReading) :
    ∀ (l : List ParamType), (∀ p ∈ l, p.name ≠ "healthIndex") →
    ∀ (rs : List (String × ℚ)) (mp : Option String) (mv : Option ℚ),
      (mp = none ∨ mp = some "healthIndex") →
      (l.foldl (criticalStep statusOf data) (rs, mp, mv)).2
        = (match l.find? (isCrit statusOf data) with
           | some p => (some p.name, data.get p)
           | none => (mp, mv)) := by
  intro l
  induction l with
  | nil => intro _ rs mp mv hmp; rfl
  | cons p ps ih =>
    intro hl rs mp mv hmp
    rw [List.foldl_cons]
    by_cases hc : isCrit statusOf data p = true
    · have hfind : (p :: ps).find? (isCrit statusOf data) = some p := by
        simp [List.find?_cons, hc]
      rw [hfind]
      unfold isCrit at hc
      cases hget : data.get p with
      | none => rw [hget] at hc; simp at hc
      | some v =>
        rw [hget] at hc
        have hcrit : statusOf p v = .critical := by simpa using hc
        have hstep : criticalStep statusOf data (rs, mp, mv) p
            = (rs ++ [(p.name, v)], some p.name, some v) := by
          unfold criticalStep
          rcases hmp with hmp | hmp <;> subst hmp <;> simp [hget, hcrit]
        rw [hstep]
        have hname : p.name ≠ "healthIndex" := hl p (by simp)
        rw [foldl_criticalStep_fixed statusOf data ps (rs ++ [(p.name, v)]) p.name (some v) hname]
        simp [hget]
    · have hfind : (p :: ps).find? (isCrit statusOf data) = ps.find? (isCrit statusOf data) := by
        simp only [Bool.not_eq_true] at hc
        simp [List.find?_cons, hc]
      rw [hfind]
      have hstep : criticalStep statusOf data (rs, mp, mv) p = (rs, mp, mv) := by
        unfold criticalStep
        unfold isCrit at hc
        cases hget : data.get p with
        | none => rfl
        | some v =>
          rw [hget] at hc
          have hncrit : ¬(statusOf p v = .critical) := by simpa using hc
          simp [hncrit]
      rw [hstep]
      exact ih (fun q hq => hl q (List.mem_cons_of_mem p hq)) rs mp mv hmp

theorem detect_pair (statusOf : ParamType → ℚ → StatusLevel) (data : SensorReading) (ht : ℚ) :
    ((detectCriticalConditions statusOf data ht).mostSevereParameter,
     (detectCriticalConditions statusOf data ht).mostSevereValue)
      = (match firstCriticalParam statusOf data with
         | some p => (some p.name, data.get p)
         | none =>
           match data.healthIndex with
           | some h => if h < ht then (some "healthIndex", some h) else (none, none)
           | none => (none, none)) := by
  have hnames : ∀ p ∈ parametersToCheck, p.name ≠ "healthIndex" := by decide
  unfold detectCriticalConditions firstCriticalParam
  cases hh : data.healthIndex with
  | none =>
    have hsev := foldl_criticalStep_severe statusOf data parametersToCheck hnames [] none none (Or.inl rfl)
    simp only [hh]
    rw [Prod.mk.eta]
    exact hsev
  | some h =>
    by_cases hch : h < ht
    · have hsev := foldl_criticalStep_severe statusOf data parametersToCheck hnames
        [("Health Index", h)] (some "healthIndex") (some h) (Or.inr rfl)
      simp only [hh, if_pos hch]
      rw [Prod.mk.eta]
      exact hsev
    · have hsev := foldl_criticalStep_severe statusOf data parametersToCheck hnames [] none none (Or.inl rfl)
      simp only [hh, if_neg hch]
      rw [Prod.mk.eta]
      exact hsev

/-- A concrete reading with a critical health index (50 below the default
threshold 60) and critical vibration (5.0 mm/s, above 4.5). -/
def cexReading : SensorReading := { vibrationRms := some 5, healthIndex := some 50 }

/-- Concrete evaluation of `detectCriticalConditions` on `cexReading`. -/
theorem detect_cex :
    detectCriticalConditions specStatus cexReading 60 =
      { hasCritical := true,
        reasons := [("Health Index", 50), ("vibrationRms", 5)],
        mostSevereParameter := some "vibrationRms",
        mostSevereValue := some 5 } := by
  norm_num [detectCriticalConditions, parametersToCheck, criticalStep, cexReading,
    SensorReading.get, ParamType.name, specStatus, defaultThresholds, getStatusColor,
    List.foldl_cons, List.foldl_nil]

/- ============ C2 ============ -/

/-- C2 counterexample: on a reading whose health index is critical (50
below threshold 60) and whose vibration is critical (5.0), the reported
most severe parameter is the vibration parameter, not the health index. -/
theorem most_severe_parameter_cex :
    cexReading.healthIndex = some 50 ∧ (50 : ℚ) < 60 ∧
    cexReading.vibrationRms = some 5 ∧ specStatus .vibrationRms 5 = .critical ∧
    (detectCriticalConditions specStatus cexReading 60).mostSevereParameter
      = some "vibrationRms" ∧
    (some "vibrationRms" : Option String) ≠ some "healthIndex" := by
  refine ⟨rfl, by norm_num, rfl, ?_, ?_, by simp⟩
  · norm_num [specStatus, defaultThresholds, getStatusColor]
  · rw [detect_cex]

/-- C2 amended: whenever some checked parameter is Critical, the most
severe parameter reported with the alert is the first Critical parameter
in the fixed evaluation order, even when the health index is also
critical (a Critical parameter overrides the health index); the health
index is reported only when it is critical and no checked parameter is
Critical. -/
theorem most_severe_parameter (statusOf : ParamType → ℚ → StatusLevel)
    (data : SensorReading) (ht : ℚ) :
    (∀ p : ParamType, firstCriticalParam statusOf data = some p →
      (detectCriticalConditions statusOf data ht).mostSevereParameter = some p.name ∧
      (detectCriticalConditions statusOf data ht).mostSevereValue = data.get p) ∧
    (firstCriticalParam statusOf data = none →
      ∀ h : ℚ, data.healthIndex = some h → h < ht →
        (detectCriticalConditions statusOf data ht).mostSevereParameter = some "healthIndex" ∧
        (detectCriticalConditions statusOf data ht).mostSevereValue = some h) := by
  have hp := detect_pair statusOf data ht
  constructor
  · intro p hfind
    rw [hfind] at hp
    exact ⟨congrArg Prod.fst hp, congrArg Prod.snd hp⟩
  · intro hfind h hh hlt
    rw [hfind, hh] at hp
    simp only [hlt, if_true, Prod.mk.injEq] at hp
    exact ⟨hp.1, hp.2⟩

/-- Witness for C2 (amended): on `cexReading` the first Critical parameter
is the vibration parameter and it is the one reported. -/
theorem most_severe_parameter_witness :
    (detectCriticalConditions specStatus cexReading 60).mostSevereParameter
      = some "vibrationRms" ∧
    (detectCriticalConditions specStatus cexReading 60).mostSevereValue = some 5 := by
  have hcrit : isCrit specStatus cexReading .vibrationRms = true := by
    norm_num [isCrit, cexReading, SensorReading.get, specStatus, defaultThresholds, getStatusColor]
  have hfind : firstCriticalParam specStatus cexReading = some .vibrationRms := by
    unfold firstCriticalParam parametersToCheck
    simp [List.find?_cons, hcrit]
  have h := (most_severe_parameter specStatus cexReading 60).1 .vibrationRms hfind
  exact ⟨h.1, h.2⟩

/- ============ C1 ============ -/

/-- The refs after a successful SendOn: `lastAlertTimeRef` holds the send
time and `wasInCriticalRef` is set. -/
theorem sendOn_success_state (statusOf : ParamType → ℚ → StatusLevel) (data : SensorReading)
    (ht : ℚ) (cd now : ℤ) (s : AlertRefs) (p : Option String) (v : Option ℚ) (s' : AlertRefs)
    (h : checkAndSendAlert statusOf data ht cd now true s = (.sendOn p v true, s')) :
    s' = { lastAlertTime := now, wasInCritical := true } := by
  unfold checkAndSendAlert at h
  by_cases hc : (detectCriticalConditions statusOf data ht).hasCritical = true
  · rw [if_pos hc] at h
    by_cases hcd : now - s.lastAlertTime < cd
    · rw [if_pos hcd] at h
      cases h
    · rw [if_neg hcd, if_pos rfl] at h
      exact (congrArg Prod.snd h).symm
  · rw [if_neg hc] at h
    by_cases hw : s.wasInCritical = true
    · rw [if_pos hw, if_pos rfl] at h
      cases h
    · rw [if_neg hw] at h
      cases h

/-- C1 amended: a successful SendOn at time t1 sets the refs to
(t1, latched), and every later Critical evaluation whose time lies within
the cooldown window of t1 is suppressed with the refs unchanged,
regardless of how many such evaluations occur; the suppression is purely
cooldown-based, so a second SendOn without an intervening SendOff becomes
possible once the window has elapsed (see the counterexample). -/
theorem alert_cooldown_latch (statusOf : ParamType → ℚ → StatusLevel) (ht : ℚ) (cd : ℤ)
    (data1 : SensorReading) (t1 : ℤ) (s : AlertRefs) (p : Option String) (v : Option ℚ)
    (s1 : AlertRefs)
    (h1 : checkAndSendAlert statusOf data1 ht cd t1 true s = (.sendOn p v true, s1))
    (trace : List (SensorReading × ℤ × Bool))
    (htrace : ∀ e ∈ trace,
      (detectCriticalConditions statusOf e.1 ht).hasCritical = true ∧ e.2.1 - t1 < cd) :
    s1 = { lastAlertTime := t1, wasInCritical := true } ∧
    runAlerts statusOf ht cd s1 trace = (List.replicate trace.length .none, s1) := by
  have hs1 := sendOn_success_state statusOf data1 ht cd t1 s p v s1 h1
  have hlast : s1.lastAlertTime = t1 := by rw [hs1]
  refine ⟨hs1, ?_⟩
  induction trace with
  | nil => rfl
  | cons e rest ih =>
    obtain ⟨hc, hcd⟩ := htrace e (by simp)
    have hstep : checkAndSendAlert statusOf e.1 ht cd e.2.1 e.2.2 s1 = (.none, s1) := by
      unfold checkAndSendAlert
      rw [if_pos hc, if_pos (by rw [hlast]; exact hcd)]
    have htail := ih (fun x hx => htrace x (List.mem_cons_of_mem e hx))
    simp only [runAlerts, hstep, htail, List.length_cons, List.replicate_succ]

/-- C1 counterexample: from the initial refs, two Critical evaluations
40 s apart (cooldown 30 s) both emit SendOn with no SendOff in between,
violating the claimed latch property. -/
theorem alert_latch_cex :
    (runAlerts specStatus 60 30000 { lastAlertTime := 0, wasInCritical := false }
        [(cexReading, 100000, true), (cexReading, 140000, true)]).1
      = [.sendOn (some "vibrationRms") (some 5) true,
         .sendOn (some "vibrationRms") (some 5) true] ∧
    latchSafe [.sendOn (some "vibrationRms") (some 5) true,
               .sendOn (some "vibrationRms") (some 5) true] = false := by
  constructor
  · have h1 : checkAndSendAlert specStatus cexReading 60 30000 100000 true
        { lastAlertTime := 0, wasInCritical := false }
        = (.sendOn (some "vibrationRms") (some 5) true,
           { lastAlertTime := 100000, wasInCritical := true }) := by
      unfold checkAndSendAlert
      rw [detect_cex]
      norm_num
    have h2 : checkAndSendAlert specStatus cexReading 60 30000 140000 true
        { lastAlertTime := 100000, wasInCritical := true }
        = (.sendOn (some "vibrationRms") (some 5) true,
           { lastAlertTime := 140000, wasInCritical := true }) := by
      unfold checkAndSendAlert
      rw [detect_cex]
      norm_num
    simp only [runAlerts, h1, h2]
  · rfl

/-- Witness for C1 (amended): after a successful SendOn at t = 100000,
two further Critical evaluations at 110000 and 120000 (inside the 30000
cooldown window) are both suppressed. -/
theorem alert_cooldown_latch_witness :
    runAlerts specStatus 60 30000 { lastAlertTime := 100000, wasInCritical := true }
        [(cexReading, 110000, true), (cexReading, 120000, false)]
      = ([.none, .none], { lastAlertTime := 100000, wasInCritical := true }) := by
  have h1 : checkAndSendAlert specStatus cexReading 60 30000 100000 true
      { lastAlertTime := 0, wasInCritical := false }
      = (.sendOn (some "vibrationRms") (some 5) true,
         { lastAlertTime := 100000, wasInCritical := true }) := by
    unfold checkAndSendAlert
    rw [detect_cex]
    norm_num
  have h := alert_cooldown_latch specStatus 60 30000 cexReading 100000
    { lastAlertTime := 0, wasInCritical := false } (some "vibrationRms") (some 5)
    { lastAlertTime := 100000, wasInCritical := true } h1
    [(cexReading, 110000, true), (cexReading, 120000, false)]
    (by
      intro e he
      rcases List.mem_cons.mp he with rfl | he
      · exact ⟨by rw [detect_cex], by decide⟩
      · rcases List.mem_cons.mp he with rfl | he
        · exact ⟨by rw [detect_cex], by decide⟩
        · cases he)
  simpa using h.2

/- ============ C3 ============ -/

/-- C3: for two consecutive Critical evaluations whose gap is below the
cooldown window, where the first successfully sent (updating
`lastAlertTimeRef`), the second evaluation is suppressed by the cooldown
check and exactly one SendOn side effect is produced. -/
theorem cooldown_single_send (statusOf : ParamType → ℚ → StatusLevel) (ht : ℚ) (cd : ℤ)
    (data1 data2 : SensorReading) (t1 t2 : ℤ) (ok2 : Bool) (s : AlertRefs)
    (p : Option String) (v : Option ℚ) (s1 : AlertRefs)
    (h1 : checkAndSendAlert statusOf data1 ht cd t1 true s = (.sendOn p v true, s1))
    (h2 : (detectCriticalConditions statusOf data2 ht).hasCritical = true)
    (hgap : t2 - t1 < cd) :
    checkAndSendAlert statusOf data2 ht cd t2 ok2 s1 = (.none, s1) ∧
    ([AlertEffect.sendOn p v true, AlertEffect.none].countP AlertEffect.isOn) = 1 := by
  have hs1 := sendOn_success_state statusOf data1 ht cd t1 s p v s1 h1
  constructor
  · unfold checkAndSendAlert
    rw [if_pos h2, if_pos (by rw [hs1]; exact hgap)]
  · rfl

/-- Witness for C3: first Critical evaluation at t = 100000 sends the
alert; a second Critical evaluation at t = 115000 (gap 15000 below the
30000 cooldown) is suppressed. -/
theorem cooldown_single_send_witness :
    checkAndSendAlert specStatus cexReading 60 30000 115000 true
        { lastAlertTime := 100000, wasInCritical := true }
      = (.none, { lastAlertTime := 100000, wasInCritical := true }) ∧
    ([AlertEffect.sendOn (some "vibrationRms") (some 5) true,
      AlertEffect.none].countP AlertEffect.isOn) = 1 := by
  have h1 : checkAndSendAlert specStatus cexReading 60 30000 100000 true
      { lastAlertTime := 0, wasInCritical := false }
      = (.sendOn (some "vibrationRms") (some 5) true,
         { lastAlertTime := 100000, wasInCritical := true }) := by
    unfold checkAndSendAlert
    rw [detect_cex]
    norm_num
  exact cooldown_single_send specStatus 60 30000 cexReading cexReading 100000 115000 true
    { lastAlertTime := 0, wasInCritical := false } (some "vibrationRms") (some 5)
    { lastAlertTime := 100000, wasInCritical := true } h1 (by rw [detect_cex]) (by decide)

/- ================================================================
   MQTT session singleton (the MQTT module in src/unnamed/part_000)
   ================================================================ -/

/-- `MAX_RECONNECT_ATTEMPTS` from the MQTT module. -/
def MAX_RECONNECT_ATTEMPTS : Nat := 10

/-- The mqtt.js client object, identified by the id of the physical
transport connection it owns, together with its `connected` flag. -/
structure MqttClientState where
  cid : Nat
  connected : Bool
deriving DecidableEq

/-- Module-level singleton state of the MQTT module: `client`,
`isConnecting`, `isCleaningUp`, `connectionAttempts`, and the stored
callbacks (modelled by identifiers). -/
structure MqttGlobal where
  client : Option MqttClientState
  isConnecting : Bool
  isCleaningUp : Bool
  connectionAttempts : Nat
  onConnectionChange : Option Nat
  onMessageReceived : Option Nat
deriving DecidableEq

/-- Which early-return branch of `connectMqtt` was taken. -/
inductive ConnectOutcome
  | skippedCleanup
  | reusedConnected
  | awaitingReconnect
  | alreadyConnecting
  | maxAttemptsReached
  | spawned
deriving DecidableEq

/-- `connectMqtt` from the MQTT module.  Returns (handle, new module
state, branch): the handle is the client returned to the caller (`none`
models a null return) and the branch is `spawned` exactly when a new
physical connection attempt is created via `mqtt.connect`; `freshCid`
identifies the transport connection that a spawn would create.  The
callbacks are stored first, then the guards run in source order: cleanup
in progress, existing connected client, existing disconnected client,
connect already in flight, attempt ceiling, spawn. -/
def connectMqtt (onConnect onMessage : Option Nat) (freshCid : Nat) (g : MqttGlobal) :
    Option Nat × MqttGlobal × ConnectOutcome :=
  let g1 := { g with
    onConnectionChange := onConnect.orElse (fun _ => g.onConnectionChange),
    onMessageReceived := onMessage.orElse (fun _ => g.onMessageReceived) }
  if g1.isCleaningUp then (none, g1, .skippedCleanup)
  else
    match g1.client with
    | some c =>
      if c.connected then (some c.cid, g1, .reusedConnected)
      else (some c.cid, g1, .awaitingReconnect)
    | none =>
      if g1.isConnecting then (none, g1, .alreadyConnecting)
      else if MAX_RECONNECT_ATTEMPTS ≤ g1.connectionAttempts then (none, g1, .maxAttemptsReached)
      else
        (some freshCid,
         { g1 with isConnecting := true,
                   connectionAttempts := g1.connectionAttempts + 1,
                   client := some { cid := freshCid, connected := false } },
         .spawned)

/- ============ C7 ============ -/

/-- C7: a connect call while the client exists and is connected (and no
teardown is in progress) returns the existing handle, leaves the client
and the attempt counter unchanged, and spawns no additional transport
connection. -/
theorem connect_singleton (onConnect onMessage : Option Nat) (freshCid : Nat) (g : MqttGlobal)
    (c : MqttClientState) (hc : g.client = some c) (hconn : c.connected = true)
    (hclean : g.isCleaningUp = false) :
    (connectMqtt onConnect onMessage freshCid g).1 = some c.cid ∧
    (connectMqtt onConnect onMessage freshCid g).2.1.client = g.client ∧
    (connectMqtt onConnect onMessage freshCid g).2.1.connectionAttempts = g.connectionAttempts ∧
    (connectMqtt onConnect onMessage freshCid g).2.2 = .reusedConnected := by
  unfold connectMqtt
  simp [hclean, hc, hconn]

/-- A module state with a live connected client (id 7) and 3 recorded
attempts. -/
def demoGlobal : MqttGlobal :=
  { client := some { cid := 7, connected := true }, isConnecting := false,
    isCleaningUp := false, connectionAttempts := 3,
    onConnectionChange := none, onMessageReceived := none }

/-- Witness for C7: two concurrent connect calls on `demoGlobal` both get
handle 7, keep the counter at 3, and spawn nothing. -/
theorem connect_singleton_witness :
    (connectMqtt (some 1) none 99 demoGlobal).1 = some 7 ∧
    (connectMqtt (some 2) none 100 demoGlobal).1 = some 7 ∧
    (connectMqtt (some 1) none 99 demoGlobal).2.1.connectionAttempts = 3 ∧
    (connectMqtt (some 1) none 99 demoGlobal).2.2 = .reusedConnected := by
  have h1 := connect_singleton (some 1) none 99 demoGlobal { cid := 7, connected := true } rfl rfl rfl
  have h2 := connect_singleton (some 2) none 100 demoGlobal { cid := 7, connected := true } rfl rfl rfl
  exact ⟨h1.1, h2.1, h1.2.2.1, h1.2.2.2⟩

/- ============ C8 ============ -/

/-- C8: once the attempt counter has reached the
`MAX_RECONNECT_ATTEMPTS` ceiling, `connectMqtt` never spawns a further
connection attempt, and when no client object survives (and no cleanup or
connect is in flight) it surfaces the permanent failure: a null handle
and the max-attempts branch instead of a retry. -/
theorem reconnect_fail_stop (onConnect onMessage : Option Nat) (freshCid : Nat) (g : MqttGlobal)
    (hmax : MAX_RECONNECT_ATTEMPTS ≤ g.connectionAttempts) :
    (connectMqtt onConnect onMessage freshCid g).2.2 ≠ .spawned ∧
    (g.client = none → g.isConnecting = false → g.isCleaningUp = false →
      (connectMqtt onConnect onMessage freshCid g).1 = none ∧
      (connectMqtt onConnect onMessage freshCid g).2.2 = .maxAttemptsReached) := by
  constructor
  · unfold connectMqtt
    by_cases hcl : g.isCleaningUp = true
    · simp [hcl]
    · simp only [Bool.not_eq_true] at hcl
      cases hc : g.client with
      | some c => cases hconn : c.connected <;> simp [hcl, hc, hconn]
      | none =>
        by_cases hic : g.isConnecting = true
        · simp [hcl, hc, hic]
        · simp only [Bool.not_eq_true] at hic
          simp [hcl, hc, hic, hmax]
  · intro hc hic hcl
    unfold connectMqtt
    simp [hcl, hc, hic, hmax]

/-- A module state that lost its client after ten recorded attempts. -/
def staleGlobal : MqttGlobal :=
  { client := none, isConnecting := false, isCleaningUp := false,
    connectionAttempts := 10, onConnectionChange := none, onMessageReceived := none }

/-- Witness for C8: on `staleGlobal` (ten attempts recorded) the connect
call returns null through the max-attempts branch. -/
theorem reconnect_fail_stop_witness :
    (connectMqtt none none 99 staleGlobal).1 = none ∧
    (connectMqtt none none 99 staleGlobal).2.2 = .maxAttemptsReached := by
  have h := reconnect_fail_stop none none 99 staleGlobal (by decide)
  exact h.2 rfl rfl rfl

/- ============ C9 ============ -/

/-- `sendOffSignalToPLC` from the MQTT module: when the client is absent
or not connected, resolve false without publishing; otherwise publish and
resolve with the broker acknowledgment.  Output: (resolved value, whether
a publish was submitted). -/
def sendOffSignalToPLC (connected : Bool) (publishOk : Bool) : Bool × Bool :=
  if !connected then (false, false)
  else (publishOk, true)

/-- `sendAlertToPLC` from the MQTT module: when the client is absent or
not connected it first calls `connectMqtt` and waits (3 s timeout);
`connectedAfterWait` is the transport state after the wait — if still not
connected the promise resolves false without publishing, otherwise the
alert payload is published then.  Output: (resolved value, whether a
publish was submitted, whether a reconnect was attempted). -/
def sendAlertToPLC (connected connectedAfterWait publishOk : Bool) : Bool × Bool × Bool :=
  if !connected then
    if !connectedAfterWait then (false, false, true)
    else (publishOk, true, true)
  else (publishOk, true, false)

/-- C9 counterexample: an ON publish started while the transport is not
connected resolves to true and submits the message when the reconnect
attempt succeeds within the wait — it is neither failed nor dropped, so
the claim does not hold for ON commands. -/
theorem unconnected_publish_cex :
    sendAlertToPLC false true true = (true, true, true) ∧ (true : Bool) ≠ false := by
  exact ⟨rfl, by decide⟩

/-- C9 amended: an OFF publish while the transport is not connected
resolves false and is dropped (nothing submitted); an ON publish while
not connected triggers one reconnect attempt and a bounded wait — if the
transport is still not connected it resolves false and is dropped, but if
the transport has become connected by then the alert is submitted (so ON
commands are delayed rather than unconditionally dropped); a publish
while connected is submitted immediately. -/
theorem unconnected_publish (publishOk : Bool) :
    sendOffSignalToPLC false publishOk = (false, false) ∧
    sendAlertToPLC false false publishOk = (false, false, true) ∧
    sendAlertToPLC false true publishOk = (publishOk, true, true) ∧
    sendAlertToPLC true false publishOk = (publishOk, true, false) :=
  ⟨rfl, rfl, rfl, rfl⟩

/- ================================================================
   Prediction endpoint (src/app/api/ml/predict/route.ts)
   ================================================================ -/

/-- A vibration reading sent to the remote predictor. -/
structure VibrationReading where
  vibration_rms : ℚ
  timestamp : Option ℤ := none
deriving DecidableEq

/-- The sensor-data body field of the prediction request. -/
structure RouteSensorData where
  gridVoltage : Option ℚ := none
  motorCurrent : Option ℚ := none
  power : Option ℚ := none
  powerFactor : Option ℚ := none
  gridFrequency : Option ℚ := none
  vibrationRms : Option ℚ := none
  motorSurfaceTemp : Option ℚ := none
  bearingTemp : Option ℚ := none
  dustDensity : Option ℚ := none
deriving DecidableEq

/-- One contributing factor of the formula-based health score. -/
structure HealthFactor where
  parameter : String
  value : ℚ
  status : String
  penalty : ℚ
deriving DecidableEq

/-- Result shape of `calculateHealthScore` (the formula-based health
score). -/
structure HealthScoreResult where
  score : ℚ
  category : String
  factors : List HealthFactor
deriving DecidableEq

/-- Classification block of a predictor response (snake_case wire
format). -/
structure MLClassificationResp where
  will_fail_soon : Bool
  failure_probability : ℚ
  confidence : String
  threshold_minutes : ℚ
deriving DecidableEq

/-- Regression block of a predictor response (snake_case wire format). -/
structure MLRegressionResp where
  minutes_to_failure : ℚ
  hours_to_failure : ℚ
  status : String
deriving DecidableEq

/-- A well-formed predictor response. -/
structure MLPredictionResponse where
  classification : MLClassificationResp
  regression : MLRegressionResp
  timestamp : String
  readings_used : Nat
deriving DecidableEq

/-- Classification block of the endpoint response (camelCase). -/
structure MLClassificationOut where
  willFailSoon : Bool
  failureProbability : ℚ
  confidence : String
  thresholdMinutes : ℚ
deriving DecidableEq

/-- Regression block of the endpoint response (camelCase). -/
structure MLRegressionOut where
  minutesToFailure : ℚ
  hoursToFailure : ℚ
  status : String
deriving DecidableEq

/-- ML block of the endpoint response. -/
structure MLPredictionOut where
  classification : MLClassificationOut
  regression : MLRegressionOut
  readingsUsed : Nat
deriving DecidableEq

/-- The JSON body returned by the endpoint on the non-throwing path. -/
structure PredictResponse where
  success : Bool
  healthScore : HealthScoreResult
  mlPrediction : Option MLPredictionOut
  mlServiceStatus : String
  mlServiceError : Option String
deriving DecidableEq

/-- Environment-determined outcome of the call to the remote predictor:
the fetch threw (service unreachable or timed out), the service answered
a non-ok HTTP status (with an optional parseable `detail`), the ok body
failed to parse as JSON, or a well-formed response arrived. -/
inductive MLServiceOutcome
  | fetchFailed (message : String)
  | httpError (status : Nat) (detail : Option String)
  | bodyNotJson (message : String)
  | ok (pred : MLPredictionResponse)
deriving DecidableEq

/-- Whether the predictor call failed (any outcome other than a
well-formed response). -/
def MLServiceOutcome.failed : MLServiceOutcome → Bool
  | .ok _ => false
  | _ => true

/-- `POST` of `app/api/ml/predict/route.ts` on a well-formed request
body.  `calcHealth` abstracts `calculateHealthScore` of
`lib/calculateHealthScore.ts` (whose source is not among the embedded
files); the route always computes it from the supplied sensor data (all
fields absent when the body carried none).  The predictor is consulted
only when at least one vibration reading is present; on any predictor
failure the response still reports success with the health score, a null
ML block, status "unavailable" and the error message (an empty-string
`detail` falls back to the status text, mirroring the JS `||`). -/
def POST (calcHealth : RouteSensorData → HealthScoreResult)
    (vibrationReadings : Option (List VibrationReading))
    (sensorData : Option RouteSensorData)
    (outcome : MLServiceOutcome) : PredictResponse :=
  let healthResult := calcHealth (sensorData.getD {})
  let readings := vibrationReadings.getD []
  let res : Option MLPredictionResponse × Option String :=
    if 1 ≤ readings.length then
      match outcome with
      | .ok pred => (some pred, none)
      | .httpError status detail =>
        (none, some (match detail with
          | some d => if d = "" then "ML service error: " ++ toString status else d
          | none => "ML service error: " ++ toString status))
      | .fetchFailed msg => (none, some msg)
      | .bodyNotJson msg => (none, some msg)
    else (none, some "Not enough vibration readings for ML prediction (need at least 1)")
  { success := true
    healthScore := healthResult
    mlPrediction := res.1.map (fun pred =>
      { classification :=
          { willFailSoon := pred.classification.will_fail_soon
            failureProbability := pred.classification.failure_probability
            confidence := pred.classification.confidence
            thresholdMinutes := pred.classification.threshold_minutes }
        regression :=
          { minutesToFailure := pred.regression.minutes_to_failure
            hoursToFailure := pred.regression.hours_to_failure
            status := pred.regression.status }
        readingsUsed := pred.readings_used })
    mlServiceStatus := if res.1.isSome then "available" else "unavailable"
    mlServiceError := res.2 }

/- ============ C10 ============ -/

/-- C10: on any predictor failure (unreachable, HTTP error, or
unparseable body) with vibration readings present, the endpoint still
returns a successful response that carries the formula-based health
score, a null ML block, the explicit "unavailable" status and an error
message. -/
theorem predictor_unavailable (calcHealth : RouteSensorData → HealthScoreResult)
    (vibrationReadings : Option (List VibrationReading)) (sensorData : Option RouteSensorData)
    (outcome : MLServiceOutcome)
    (hr : 1 ≤ (vibrationReadings.getD []).length)
    (hf : outcome.failed = true) :
    ∃ msg : String,
      POST calcHealth vibrationReadings sensorData outcome =
        { success := true,
          healthScore := calcHealth (sensorData.getD {}),
          mlPrediction := none,
          mlServiceStatus := "unavailable",
          mlServiceError := some msg } := by
  cases outcome with
  | ok pred => simp [MLServiceOutcome.failed] at hf
  | fetchFailed msg => exact ⟨msg, by simp [POST, hr]⟩
  | bodyNotJson msg => exact ⟨msg, by simp [POST, hr]⟩
  | httpError status detail =>
    cases detail with
    | none => exact ⟨"ML service error: " ++ toString status, by simp [POST, hr]⟩
    | some d =>
      by_cases hd : d = ""
      · exact ⟨"ML service error: " ++ toString status, by simp [POST, hr, hd]⟩
      · exact ⟨d, by simp [POST, hr, hd]⟩

/-- A constant stand-in for the abstract health-score computation. -/
def constHealth : RouteSensorData → HealthScoreResult :=
  fun _ => { score := 100, category := "Healthy", factors := [] }

/-- One vibration reading. -/
def demoVib : List VibrationReading := [{ vibration_rms := 5 }]

/-- Witness for C10: with one reading and an unreachable predictor, the
endpoint answers success with the health score and an unavailable
status. -/
theorem predictor_unavailable_witness :
    ∃ msg : String,
      POST constHealth (some demoVib) none (.fetchFailed "fetch failed")
        = { success := true, healthScore := constHealth {}, mlPrediction := none,
            mlServiceStatus := "unavailable", mlServiceError := some msg } :=
  predictor_unavailable constHealth (some demoVib) none (.fetchFailed "fetch failed")
    (by decide) rfl

end MechaSense
